import Mathlib

/-
  Verification development for the boss-manage CloudFormation configuration
  builder (src/cloud_formation/configuration.py) and the create entry points
  of src/cloud_formation/configs/proofreader.py and production.py.

  The Python code is shallowly embedded: Python dicts with string keys become
  association lists with overwrite-on-assignment semantics, Python values that
  flow into templates become the `JValue` type (with `JValue.null` modelling
  the Python None value), mutation of `self` becomes explicit state passing, and a
  `raise` becomes an `Except.error` carrying the message together with the
  state of the object at the moment the exception propagates.
-/

/-- Model of the JSON-like values stored in a CloudFormation template:
strings, numbers, booleans, Python None, lists and dicts. -/
inductive JValue where
  | str (s : String)
  | num (n : Int)
  | jbool (b : Bool)
  | null
  | arr (xs : List JValue)
  | obj (fields : List (String × JValue))
  deriving Repr

/-- Test used by the embedding for Python `is None` checks on a JValue. -/
def JValue.isNull : JValue → Bool
  | .null => true
  | _ => false

/-- Lookup in a Python dict modelled as an association list (first match). -/
def dictGet {β : Type} (d : List (String × β)) (k : String) : Option β :=
  match d with
  | [] => none
  | (k', v') :: rest => if k' = k then some v' else dictGet rest k

/-- Assignment `d[k] = v` on a Python dict modelled as an association list:
overwrite in place if the key exists, append at the end otherwise. -/
def dictSet {β : Type} (d : List (String × β)) (k : String) (v : β) : List (String × β) :=
  match d with
  | [] => [(k, v)]
  | (k', v') :: rest => if k' = k then (k, v) :: rest else (k', v') :: dictSet rest k v

/-- Field lookup `j[k]` on an object JValue; `none` for non-objects. -/
def JValue.getField : JValue → String → Option JValue
  | .obj fields, k => dictGet fields k
  | _, _ => none

/-- Field assignment `j[k] = v` on an object JValue; identity on non-objects
(the embedding only applies it to objects). -/
def JValue.setField : JValue → String → JValue → JValue
  | .obj fields, k, v => .obj (dictSet fields k v)
  | j, _, _ => j

/-- Modelled from the spec: `lib.template_argument(key, value)` lives in
library.py, which is not part of the provided sources.  Per the spec the
argument document is an ordered sequence of `{ParameterKey, ParameterValue}`
pairs, and `configuration.py` reads exactly the fields `ParameterKey` and
`ParameterValue` from each argument, so the helper is modelled as building
that pair. -/
structure TemplateArgument where
  ParameterKey : String
  ParameterValue : JValue
  deriving Repr

/-- Embedding of `lib.template_argument(key, value)` (modelled from the spec,
see `TemplateArgument`). -/
def template_argument (key : String) (value : JValue) : TemplateArgument :=
  ⟨key, value⟩

/-- Embedding of the `Arg` class of configuration.py: a key, a parameter
dict, and the bound argument. -/
structure Arg where
  key : String
  parameter : List (String × JValue)
  argument : TemplateArgument
  deriving Repr

/-- Embedding of `Arg.Password`: a string argument with `NoEcho` set. -/
def Arg.Password (key : String) (value : JValue) (description : String := "") : Arg :=
  { key := key
    parameter := [("Description", .str description), ("Type", .str "String"),
                  ("NoEcho", .str "true")]
    argument := template_argument key value }

/-- Embedding of `Arg.Port`: a number argument with a 1..65535 range
recorded on the parameter. -/
def Arg.Port (key : String) (value : JValue) (description : String := "") : Arg :=
  { key := key
    parameter := [("Description", .str description), ("Type", .str "Number"),
                  ("MinValue", .str "1"), ("MaxValue", .str "65535")]
    argument := template_argument key value }

/-- Embedding of `Arg.CIDR`: a string argument whose parameter records length
bounds, a default, and the IPv4 CIDR `AllowedPattern`; the value itself is
bound unchanged and never inspected. -/
def Arg.CIDR (key : String) (value : JValue) (description : String := "") : Arg :=
  { key := key
    parameter := [("Description", .str description), ("Type", .str "String"),
                  ("MinLength", .str "9"), ("MaxLength", .str "18"),
                  ("Default", .str "0.0.0.0/0"),
                  ("AllowedPattern", .str "(\\d\x7b1,3\x7d)\\.(\\d\x7b1,3\x7d)\\.(\\d\x7b1,3\x7d)\\.(\\d\x7b1,3\x7d)/(\\d\x7b1,2\x7d)"),
                  ("ConstraintDescription", .str "must be a valid IP CIDR range of the form x.x.x.x/x.")]
    argument := template_argument key value }

/-- Embedding of `Arg.AMI`: an AMI id argument. -/
def Arg.AMI (key : String) (value : JValue) (description : String := "") : Arg :=
  { key := key
    parameter := [("Description", .str description), ("Type", .str "AWS::EC2::Image::Id")]
    argument := template_argument key value }

/-- Embedding of `Arg.KeyPair`: an EC2 key-pair name argument. -/
def Arg.KeyPair (key : String) (value : JValue) (hostname : String) : Arg :=
  { key := key
    parameter := [("Description", .str ("Name of an existing EC2 KeyPair to enable SSH access to " ++ hostname)),
                  ("Type", .str "AWS::EC2::KeyPair::KeyName"),
                  ("ConstraintDescription", .str "must be the name of an existing EC2 KeyPair.")]
    argument := template_argument key value }

/-- Embedding of `Arg.String` (the generic string argument constructor).
Declared after the other `Arg` constructors because its declared name would
otherwise shadow the `String` type inside the `Arg` namespace. -/
def Arg.String (key : String) (value : JValue) (description : String := "") : Arg :=
  { key := key
    parameter := [("Description", .str description), ("Type", .str "String")]
    argument := template_argument key value }

/-- Embedding of the mutable state of the `CloudFormationConfiguration`
class: the resource dict, the parameter dict, the ordered argument list, and
the domain/region data set by the constructor that the modelled builder
operations read. -/
structure CloudFormationConfiguration where
  resources : List (String × JValue)
  parameters : List (String × (List (String × JValue)))
  arguments : List TemplateArgument
  vpc_domain : String
  region : String
  deriving Repr

/-- Embedding of `CloudFormationConfiguration.add_arg`: add the parameter and
append the bound argument only when the key is not already a parameter. -/
def CloudFormationConfiguration.add_arg (c : CloudFormationConfiguration) (arg : Arg) :
    CloudFormationConfiguration :=
  if (dictGet c.parameters arg.key).isSome then c
  else { c with parameters := dictSet c.parameters arg.key arg.parameter
                arguments := c.arguments ++ [arg.argument] }

/-- Model of a Python value that `get_scenario` may receive: None, a plain
scalar, or a dict from scenario names to further such values. -/
inductive PyObj (α : Type) where
  | pynone
  | scalar (v : α)
  | dict (d : List (String × PyObj α))

/-- Test for Python `is None` on a `PyObj`. -/
def PyObj.isNone {α : Type} : PyObj α → Bool
  | .pynone => true
  | _ => false

/-- Test for Python `type(var) == dict` on a `PyObj`. -/
def PyObj.isDict {α : Type} : PyObj α → Bool
  | .dict _ => true
  | _ => false

/-- Embedding of Python `d.get(k, None)`: missing keys give None. -/
def pyGet {α : Type} (d : List (String × PyObj α)) (k : String) : PyObj α :=
  (dictGet d k).getD .pynone

/-- Embedding of Python `d.get(k, dflt)`. -/
def pyGetD {α : Type} (d : List (String × PyObj α)) (k : String) (dflt : PyObj α) : PyObj α :=
  (dictGet d k).getD dflt

/-- Embedding of `get_scenario(var, default)` from configuration.py.  The
process-wide `SCENARIO` environment variable is passed explicitly as
`scenario`.  A non-dict is returned unchanged; for a dict the scenario entry
is used unless it is missing or None, in which case the "default" entry is
used, falling back to the `default` argument. -/
def get_scenario {α : Type} (scenario : String) (var : PyObj α)
    (default : PyObj α := .pynone) : PyObj α :=
  match var with
  | .dict d =>
      let var_ := pyGet d scenario
      if var_.isNone then pyGetD d "default" default else var_
  | v => v

mutual

/-- Conversion of a resolved scenario value into a template value (a Python
object placed into the properties dict). -/
def PyObj.toJValue : PyObj String → JValue
  | .pynone => .null
  | .scalar s => .str s
  | .dict d => .obj (pyFieldsToJValue d)

/-- Conversion of dict fields, mutually with `PyObj.toJValue`. -/
def pyFieldsToJValue : List (String × PyObj String) → List (String × JValue)
  | [] => []
  | (k, v) :: rest => (k, PyObj.toJValue v) :: pyFieldsToJValue rest

end

/-- Embedding of the inline scenario resolution used by `add_rds_db` and
`add_redis_cluster` for their `type_` argument: if it is a dict, take the
scenario entry, else the "default" entry, else the given literal default. -/
def scenario_pick (scenario : String) (type_ : PyObj String) (dflt : String) : PyObj String :=
  match type_ with
  | .dict d =>
      let type__ := pyGet d scenario
      if type__.isNone then pyGetD d "default" (.scalar dflt) else type__
  | v => v

/-- Assignment `self.resources[rkey][field] = v`.  The modelled call sites
only use it right after `self.resources[rkey]` has been assigned, so the
missing-key fallback (Python would raise KeyError) is unreachable there. -/
def CloudFormationConfiguration.setResourceField (c : CloudFormationConfiguration)
    (rkey field : String) (v : JValue) : CloudFormationConfiguration :=
  match dictGet c.resources rkey with
  | some r => { c with resources := dictSet c.resources rkey (r.setField field v) }
  | none => c

/-- Assignment `self.resources[rkey]["Properties"][field] = v`, with the same
unreachable missing-key fallback as `setResourceField`. -/
def CloudFormationConfiguration.setResourcePropField (c : CloudFormationConfiguration)
    (rkey field : String) (v : JValue) : CloudFormationConfiguration :=
  match dictGet c.resources rkey with
  | some r =>
      let props := ((r.getField "Properties").getD (.obj [])).setField field v
      { c with resources := dictSet c.resources rkey (r.setField "Properties" props) }
  | none => c

/-- Read access `self.resources[rkey]["Properties"][field]` used to state
theorems about registered resources. -/
def CloudFormationConfiguration.resourceProp (c : CloudFormationConfiguration)
    (rkey field : String) : Option JValue :=
  match dictGet c.resources rkey with
  | some r => (r.getField "Properties").bind (fun p => p.getField field)
  | none => none

/-- Build step of `_add_record_cname` shared by its non-raising branches:
write the RecordSet resource (with the Fn::GetAtt on the selected attribute
key, or on None when no role flag was set), add the DNSZone ordering edge
when a DNSZone resource exists, and add the vpc Domain parameter. -/
def CloudFormationConfiguration.record_cname_write (c : CloudFormationConfiguration)
    (key hostname vpc ttl : String) (address_key : Option String) :
    CloudFormationConfiguration :=
  let record : JValue := .obj [
    ("Type", .str "AWS::Route53::RecordSet"),
    ("Properties", .obj [
      ("HostedZoneName", .obj [("Fn::Join", .arr [.str "",
          .arr [.obj [("Ref", .str (vpc ++ "Domain"))], .str "."]])]),
      ("Name", .str hostname),
      ("ResourceRecords", .arr [.obj [("Fn::GetAtt", .arr [.str key,
          match address_key with
          | some s => .str s
          | none => .null])]]),
      ("TTL", .str ttl),
      ("Type", .str "CNAME")])]
  let c1 := { c with resources := dictSet c.resources (key ++ "Record") record }
  let c2 :=
    if (dictGet c1.resources "DNSZone").isSome then
      c1.setResourceField (key ++ "Record") "DependsOn" (.str "DNSZone")
    else c1
  c2.add_arg (Arg.String (vpc ++ "Domain") (.str c.vpc_domain) ("Domain of the VPC " ++ vpc))

/-- Embedding of `CloudFormationConfiguration._add_record_cname`.  Exactly one
of the four role flags is supposed to be set; the cluster role raises
NotSupported before any state is modified.  The error value carries the
configuration state at the moment the exception propagates. -/
def CloudFormationConfiguration._add_record_cname (c : CloudFormationConfiguration)
    (key hostname : String) (vpc : String := "VPC") (ttl : String := "300")
    (rds : Bool := false) (cluster : Bool := false) (replication : Bool := false)
    (ec2 : Bool := false) :
    Except (String × CloudFormationConfiguration) CloudFormationConfiguration :=
  if rds then .ok (c.record_cname_write key hostname vpc ttl (some "Endpoint.Address"))
  else if cluster then .error ("NotSupported currently", c)
  else if replication then .ok (c.record_cname_write key hostname vpc ttl (some "PrimaryEndPoint.Address"))
  else if ec2 then .ok (c.record_cname_write key hostname vpc ttl (some "PrivateDnsName"))
  else .ok (c.record_cname_write key hostname vpc ttl none)

/-- Embedding of `CloudFormationConfiguration.add_rds_db`.  The SCENARIO
environment variable is passed explicitly as `scenario`.  Registers the DB
instance at `key`, its subnet group at `key ++ "SubnetGroup"`, the five
Hostname/Port/DBName/Username/Password parameter and argument pairs, and then
the DNS CNAME record through `_add_record_cname` with the rds role. -/
def CloudFormationConfiguration.add_rds_db (c : CloudFormationConfiguration)
    (scenario : String) (key hostname : String)
    (port db_name username password : JValue) (subnets : List String)
    (type_ : PyObj String := .scalar "db.t2.micro") (storage : String := "5")
    (security_groups : Option (List String) := none) :
    Except (String × CloudFormationConfiguration) CloudFormationConfiguration :=
  let type_ := scenario_pick scenario type_ "db.t2.micro"
  let multi_az := (dictGet [("development", "false"), ("production", "true")] scenario).getD "false"
  let c1 := { c with resources := dictSet c.resources key (.obj [
    ("Type", .str "AWS::RDS::DBInstance"),
    ("Properties", .obj [
      ("Engine", .str "mysql"),
      ("LicenseModel", .str "general-public-license"),
      ("EngineVersion", .str "5.6.23"),
      ("DBInstanceClass", type_.toJValue),
      ("MultiAZ", .str multi_az),
      ("StorageType", .str "standard"),
      ("AllocatedStorage", .str storage),
      ("DBInstanceIdentifier", .obj [("Ref", .str (key ++ "Hostname"))]),
      ("MasterUsername", .obj [("Ref", .str (key ++ "Username"))]),
      ("MasterUserPassword", .obj [("Ref", .str (key ++ "Password"))]),
      ("DBSubnetGroupName", .obj [("Ref", .str (key ++ "SubnetGroup"))]),
      ("PubliclyAccessible", .str "false"),
      ("DBName", .obj [("Ref", .str (key ++ "DBName"))]),
      ("Port", .obj [("Ref", .str (key ++ "Port"))]),
      ("StorageEncrypted", .str "false")])]) }
  let c2 := { c1 with resources := dictSet c1.resources (key ++ "SubnetGroup") (.obj [
    ("Type", .str "AWS::RDS::DBSubnetGroup"),
    ("Properties", .obj [
      ("DBSubnetGroupDescription", .obj [("Ref", .str (key ++ "Hostname"))]),
      ("SubnetIds", .arr (subnets.map (fun subnet => .obj [("Ref", .str subnet)])))])]) }
  let c3 := match security_groups with
    | none => c2
    | some sgs => c2.setResourcePropField key "VPCSecurityGroups"
        (.arr (sgs.map (fun sg => .obj [("Ref", .str sg)])))
  let c4 := c3.add_arg (Arg.String (key ++ "Hostname") (.str (hostname.replace "." "-"))
      ("Hostname of the RDS DB Instance " ++ key))
  let c5 := c4.add_arg (Arg.Port (key ++ "Port") port
      ("DB Server Port for the RDS DB Instance " ++ key))
  let c6 := c5.add_arg (Arg.String (key ++ "DBName") db_name
      ("Name of the intial database on the RDS DB Instance " ++ key))
  let c7 := c6.add_arg (Arg.String (key ++ "Username") username
      ("Master Username for RDS DB Instance " ++ key))
  let c8 := c7.add_arg (Arg.Password (key ++ "Password") password
      ("Master User Password for RDS DB Instance " ++ key))
  c8._add_record_cname key hostname "VPC" "300" true false false false

/-- Embedding of `CloudFormationConfiguration.add_redis_cluster`.  Registers
the cache cluster at `key` (with an explicit DependsOn ordering edge on its
subnet group), the subnet group at `key ++ "SubnetGroup"`, the Hostname
parameter and argument, and finally calls `_add_record_cname` with the
cluster role, which raises unconditionally. -/
def CloudFormationConfiguration.add_redis_cluster (c : CloudFormationConfiguration)
    (scenario : String) (key hostname : String)
    (subnets : List String) (security_groups : List String)
    (type_ : PyObj String := .scalar "cache.t2.micro") (port : JValue := .num 6379)
    (version : String := "2.8.24") :
    Except (String × CloudFormationConfiguration) CloudFormationConfiguration :=
  let type_ := scenario_pick scenario type_ "cache.t2.micro"
  let c1 := { c with resources := dictSet c.resources key (.obj [
    ("Type", .str "AWS::ElastiCache::CacheCluster"),
    ("Properties", .obj [
      ("CacheNodeType", type_.toJValue),
      ("CacheSubnetGroupName", .obj [("Ref", .str (key ++ "SubnetGroup"))]),
      ("Engine", .str "redis"),
      ("EngineVersion", .str version),
      ("NumCacheNodes", .str "1"),
      ("Port", port),
      ("Tags", .arr [
        .obj [("Key", .str "Stack"), ("Value", .obj [("Ref", .str "AWS::StackName")])],
        .obj [("Key", .str "Name"), ("Value", .obj [("Ref", .str (key ++ "Hostname"))])]]),
      ("VpcSecurityGroupIds", .arr (security_groups.map (fun sg => .obj [("Ref", .str sg)])))]),
    ("DependsOn", .str (key ++ "SubnetGroup"))]) }
  let c2 := { c1 with resources := dictSet c1.resources (key ++ "SubnetGroup") (.obj [
    ("Type", .str "AWS::ElastiCache::SubnetGroup"),
    ("Properties", .obj [
      ("Description", .obj [("Ref", .str (key ++ "Hostname"))]),
      ("SubnetIds", .arr (subnets.map (fun subnet => .obj [("Ref", .str subnet)])))])]) }
  let c3 := c2.add_arg (Arg.String (key ++ "Hostname") (.str (hostname.replace "." "-"))
      ("Hostname of the Redis Cluster " ++ key))
  c3._add_record_cname key hostname "VPC" "300" false true false false

/-- Embedding of `CloudFormationConfiguration.add_route_table_route`.  The
Route resource is written first (as in the source); then the
exactly-one-target check runs over [gateway, peer, instance] and raises when
it fails, with the already-written resource still in the carried state. -/
def CloudFormationConfiguration.add_route_table_route (c : CloudFormationConfiguration)
    (key route_table : String) (cidr : JValue := .str "0.0.0.0/0")
    (gateway : Option String := none) (peer : Option String := none)
    (instance_ : Option String := none) (depends_on : Option JValue := none) :
    Except (String × CloudFormationConfiguration) CloudFormationConfiguration :=
  let c1 := { c with resources := dictSet c.resources key (.obj [
    ("Type", .str "AWS::EC2::Route"),
    ("Properties", .obj [
      ("RouteTableId", .obj [("Ref", .str route_table)]),
      ("DestinationCidrBlock", .obj [("Ref", .str (key ++ "Cidr"))])])]) }
  let checks : List (Option String) := [gateway, peer, instance_]
  if checks.length - checks.count none ≠ 1 then
    .error ("Required to specify one and only one of the following arguments: gateway|peer|instance", c1)
  else
    let c2 := match gateway with
      | some g => c1.setResourcePropField key "GatewayId" (.obj [("Ref", .str g)])
      | none => c1
    let c3 := match peer with
      | some p => c2.setResourcePropField key "VpcPeeringConnectionId" (.obj [("Ref", .str p)])
      | none => c2
    let c4 := match instance_ with
      | some i => c3.setResourcePropField key "InstanceId" (.obj [("Ref", .str i)])
      | none => c3
    let c5 := match depends_on with
      | some d => c4.setResourceField key "DependsOn" d
      | none => c4
    .ok (c5.add_arg (Arg.CIDR (key ++ "Cidr") cidr ("Destination CIDR Block for Route " ++ key)))

/-- Observable calls `create` makes against the provisioning service, plus
the fixed sleeps between polls. -/
inductive ProviderEvent where
  | createStack
  | describeStack
  | sleep (seconds : Nat)
  deriving Repr, DecidableEq

deriving instance DecidableEq for Except

/-- Result of one run of `CloudFormationConfiguration.create`: the events it
performed in order and its outcome (a raised exception message, or the Python
return value None / True / False). -/
structure CreateOutcome where
  events : List ProviderEvent
  result : Except String (Option Bool)
  deriving Repr, DecidableEq

/-- Exit test of the wait loop of `create`: the i-th describe_stacks response
no longer has head status CREATE_IN_PROGRESS (an empty response also exits
the loop, through the IndexError that get_status would raise on it). -/
def stackDone (describe : Nat → List String) (i : Nat) : Bool :=
  (describe i).head? != some "CREATE_IN_PROGRESS"

/-- Index of the first describe_stacks response on which the wait loop of
`create` stops polling; total thanks to the termination evidence `h` (the
Python loop has no bound and simply never returns when `h` fails). -/
def pollIdx (describe : Nat → List String) (h : ∃ i, stackDone describe i = true) : Nat :=
  Nat.find h

/-- Sleep/describe event pairs performed by k iterations of the wait loop. -/
def pollTail : Nat → List ProviderEvent
  | 0 => []
  | k + 1 => .sleep 5 :: .describeStack :: pollTail k

/-- Embedding of `CloudFormationConfiguration.create`.  The boto3 session is
abstracted into `describe`, giving the status list of the i-th
describe_stacks response (i = 0 is the response examined right after
create_stack).  First every argument is checked for a None value, raising
before any provider call; then create_stack is issued; with wait=False the
function returns None; with wait=True it returns None if the first response
has no stacks, and otherwise polls every 5 seconds while the status is
CREATE_IN_PROGRESS, returning True exactly for CREATE_COMPLETE. -/
def CloudFormationConfiguration.create (c : CloudFormationConfiguration)
    (describe : Nat → List String) (wait : Bool)
    (h : wait = true → (describe 0).length ≠ 0 → ∃ i, stackDone describe i = true) :
    CreateOutcome :=
  match c.arguments.find? (fun a => a.ParameterValue.isNull) with
  | some a => ⟨[], .error ("Could not determine argument " ++ a.ParameterKey)⟩
  | none =>
    if hw : wait = true then
      if h0 : (describe 0).length = 0 then
        ⟨[.createStack, .describeStack], .ok none⟩
      else
        let k := pollIdx describe (h hw h0)
        let events := ProviderEvent.createStack :: .describeStack :: pollTail k
        match (describe k).head? with
        | none => ⟨events, .error "IndexError"⟩
        | some s => ⟨events, .ok (some (if s = "CREATE_COMPLETE" then true else false))⟩
    else ⟨[.createStack], .ok none⟩

/-- Vault path written by proofreader.py for the django secret key. -/
def VAULT_DJANGO : String := "secret/proofreader/django"

/-- Vault path written by proofreader.py for the django database secrets. -/
def VAULT_DJANGO_DB : String := "secret/proofreader/django/db"

/-- External calls made by the create entry points of proofreader.py and
production.py: vault commands through call_vault (identified by the command
string and its principal argument) and the stack submission. -/
inductive ExtCall where
  | callVault (command : String) (arg : String)
  | createStackCall (stackName : String)
  deriving Repr, DecidableEq

/-- Outcomes of the external collaborators during one run of a create entry
point: what each call_vault command returns or raises, and whether the stack
submission (create_config plus config.create) raises, fails or succeeds. -/
structure VaultOracle where
  vaultOutcome : String → String → Except String String
  submitOutcome : Except String Bool

/-- Observable result of one run of a create entry point: the external calls
attempted in order, and the final outcome (normal return or the exception
that propagates to the caller). -/
structure CreateRun where
  calls : List ExtCall
  result : Except String Unit
  deriving Repr, DecidableEq

/-- Embedding of the bare except block of `create` in proofreader.py: the two
vault-delete reversals run inside one shared try (so the second delete is
attempted only when the first delete returned), the vault-revoke reversal
runs in its own try, every reversal failure is swallowed, and the original
error is re-raised. -/
def Proofreader.compensate (o : VaultOracle) (calls : List ExtCall) (token : String)
    (err : String) : CreateRun :=
  let calls :=
    match o.vaultOutcome "vault-delete" VAULT_DJANGO with
    | .error _ => calls ++ [ExtCall.callVault "vault-delete" VAULT_DJANGO]
    | .ok _ => calls ++ [ExtCall.callVault "vault-delete" VAULT_DJANGO,
                         ExtCall.callVault "vault-delete" VAULT_DJANGO_DB]
  let calls := calls ++ [ExtCall.callVault "vault-revoke" token]
  ⟨calls, .error err⟩

/-- Embedding of `create(session, domain)` of proofreader.py: provision the
proofreader vault token, write the two django secrets, then submit the stack
inside a try whose handler reverses the secrets and re-raises.  A falsy
submission result is turned into the Create Failed exception by the raise
inside the try. -/
def Proofreader.create (o : VaultOracle) (stackName : String) : CreateRun :=
  match o.vaultOutcome "vault-provision" "proofreader" with
  | .error e => ⟨[.callVault "vault-provision" "proofreader"], .error e⟩
  | .ok proofreader_token =>
    let calls0 := [ExtCall.callVault "vault-provision" "proofreader"]
    match o.vaultOutcome "vault-write" VAULT_DJANGO with
    | .error e => ⟨calls0 ++ [.callVault "vault-write" VAULT_DJANGO], .error e⟩
    | .ok _ =>
      let calls1 := calls0 ++ [ExtCall.callVault "vault-write" VAULT_DJANGO]
      match o.vaultOutcome "vault-write" VAULT_DJANGO_DB with
      | .error e => ⟨calls1 ++ [.callVault "vault-write" VAULT_DJANGO_DB], .error e⟩
      | .ok _ =>
        let calls2 := calls1 ++ [ExtCall.callVault "vault-write" VAULT_DJANGO_DB]
        let calls3 := calls2 ++ [ExtCall.createStackCall stackName]
        match o.submitOutcome with
        | .ok true => ⟨calls3, .ok ()⟩
        | .ok false => Proofreader.compensate o calls3 proofreader_token "Create Failed"
        | .error e => Proofreader.compensate o calls3 proofreader_token e

/-- Embedding of the bare except block of `create` in production.py: the
vault-django credential override runs in its own try, the vault-revoke runs
in its own try (so each of the two issued secrets gets its reversal attempt
independently), every reversal failure is swallowed, and the original error
is re-raised. -/
def Production.compensate (o : VaultOracle) (calls : List ExtCall) (token : String)
    (err : String) : CreateRun :=
  let calls := calls ++ [ExtCall.callVault "vault-django" ""]
  let calls := calls ++ [ExtCall.callVault "vault-revoke" token]
  ⟨calls, .error err⟩

/-- Embedding of `create(session, domain)` of production.py: provision the
endpoint vault token, write the django database credentials, then submit the
stack inside a try whose handler reverses both secrets and re-raises. -/
def Production.create (o : VaultOracle) (stackName : String) : CreateRun :=
  match o.vaultOutcome "vault-provision" "endpoint" with
  | .error e => ⟨[.callVault "vault-provision" "endpoint"], .error e⟩
  | .ok endpoint_token =>
    let calls0 := [ExtCall.callVault "vault-provision" "endpoint"]
    match o.vaultOutcome "vault-django" "db" with
    | .error e => ⟨calls0 ++ [.callVault "vault-django" "db"], .error e⟩
    | .ok _ =>
      let calls1 := calls0 ++ [ExtCall.callVault "vault-django" "db"]
      let calls2 := calls1 ++ [ExtCall.createStackCall stackName]
      match o.submitOutcome with
      | .ok true => ⟨calls2, .ok ()⟩
      | .ok false => Production.compensate o calls2 endpoint_token "Create Failed"
      | .error e => Production.compensate o calls2 endpoint_token e

/-- Oracle exhibiting the compensation gap of proofreader.py: every call
succeeds except the stack submission (which raises) and the vault-delete of
the django secret-key path (which raises during compensation). -/
def badOracle : VaultOracle :=
  ⟨fun cmd arg =>
      if cmd = "vault-delete" ∧ arg = "secret/proofreader/django" then .error "delete failed"
      else .ok "token",
    .error "submission failed"⟩

theorem dictGet_dictSet_self {β : Type} (d : List (String × β)) (k : String) (v : β) :
    dictGet (dictSet d k v) k = some v := by
  induction d with
  | nil => simp [dictGet, dictSet]
  | cons hd tl ih =>
      obtain ⟨a, b⟩ := hd
      by_cases ha : a = k <;> simp [dictGet, dictSet, ha, ih]

theorem dictGet_dictSet_ne {β : Type} (d : List (String × β)) (k k' : String) (v : β)
    (h : k' ≠ k) : dictGet (dictSet d k v) k' = dictGet d k' := by
  induction d with
  | nil => simp [dictGet, dictSet, Ne.symm h]
  | cons hd tl ih =>
      obtain ⟨a, b⟩ := hd
      by_cases ha : a = k
      · subst ha
        simp [dictGet, dictSet, Ne.symm h]
      · by_cases ha' : a = k' <;> simp [dictGet, dictSet, ha, ha', h, ih]

theorem dictGet_eq_none_iff {β : Type} (d : List (String × β)) (k : String) :
    dictGet d k = none ↔ k ∉ d.map Prod.fst := by
  induction d with
  | nil => simp [dictGet]
  | cons hd tl ih =>
      obtain ⟨a, b⟩ := hd
      by_cases ha : a = k
      · subst ha
        simp [dictGet]
      · simp [dictGet, ha, ih, Ne.symm ha]

theorem dictSet_map_fst_of_none {β : Type} (d : List (String × β)) (k : String) (v : β)
    (h : dictGet d k = none) : (dictSet d k v).map Prod.fst = d.map Prod.fst ++ [k] := by
  induction d with
  | nil => simp [dictSet]
  | cons hd tl ih =>
      obtain ⟨a, b⟩ := hd
      by_cases ha : a = k
      · simp [dictGet, ha] at h
      · simp [dictGet, ha] at h
        simp [dictSet, ha, ih h]

theorem string_append_ne (k s : String) (h : s.length ≠ 0) : k ++ s ≠ k := by
  intro he
  have hl := congrArg String.length he
  rw [String.length_append] at hl
  omega

theorem string_append_left_inj (k a b : String) (h : a ≠ b) : k ++ a ≠ k ++ b := by
  intro he
  apply h
  have hd : (k ++ a).data = (k ++ b).data := congrArg String.data he
  rw [String.data_append, String.data_append] at hd
  have : a.data = b.data := List.append_cancel_left hd
  cases a; cases b; simp_all

theorem add_arg_resources (c : CloudFormationConfiguration) (a : Arg) :
    (c.add_arg a).resources = c.resources := by
  by_cases h : (dictGet c.parameters a.key).isSome <;>
    simp [CloudFormationConfiguration.add_arg, h]

theorem add_arg_vpc_domain (c : CloudFormationConfiguration) (a : Arg) :
    (c.add_arg a).vpc_domain = c.vpc_domain := by
  by_cases h : (dictGet c.parameters a.key).isSome <;>
    simp [CloudFormationConfiguration.add_arg, h]

theorem add_arg_key_present (c : CloudFormationConfiguration) (a : Arg) :
    (dictGet (c.add_arg a).parameters a.key).isSome := by
  by_cases h : (dictGet c.parameters a.key).isSome <;>
    simp [CloudFormationConfiguration.add_arg, h, dictGet_dictSet_self]

theorem add_arg_param_mono (c : CloudFormationConfiguration) (a : Arg) (k : String)
    (h : (dictGet c.parameters k).isSome) :
    (dictGet (c.add_arg a).parameters k).isSome := by
  by_cases hp : (dictGet c.parameters a.key).isSome
  · simpa [CloudFormationConfiguration.add_arg, hp] using h
  · by_cases hk : k = a.key
    · subst hk
      exact add_arg_key_present c a
    · simpa [CloudFormationConfiguration.add_arg, hp,
        dictGet_dictSet_ne _ _ _ _ hk] using h

theorem add_arg_arguments_cases (c : CloudFormationConfiguration) (a : Arg) :
    (c.add_arg a).arguments = c.arguments ++ [a.argument]
    ∨ (c.add_arg a).arguments = c.arguments := by
  by_cases h : (dictGet c.parameters a.key).isSome
  · right
    simp [CloudFormationConfiguration.add_arg, h]
  · left
    simp [CloudFormationConfiguration.add_arg, h]

/-- C8: the scenario resolver returns every non-mapping value unchanged, and
on a mapping prefers the entry of the process-wide selector, then the
"default" entry, then the fallback, as on the three documented examples:
under selector dev the dev entry wins; under prod the default entry wins;
with no applicable entry the fallback is returned. -/
theorem get_scenario_spec :
    (∀ (α : Type) (scenario : String) (v : PyObj α) (dflt : PyObj α),
        v.isDict = false → get_scenario scenario v dflt = v)
    ∧ get_scenario "dev" (.dict [("dev", .scalar (1 : Int)), ("default", .scalar 2)])
        (.scalar 9) = .scalar 1
    ∧ get_scenario "prod" (.dict [("dev", .scalar (1 : Int)), ("default", .scalar 2)])
        (.scalar 9) = .scalar 2
    ∧ get_scenario "prod" (.dict [("dev", .scalar (1 : Int))]) (.scalar 9) = .scalar 9 := by
  refine ⟨?_, ?_, ?_, ?_⟩
  · intro α scenario v dflt hv
    cases v <;> first
      | rfl
      | simp [PyObj.isDict] at hv
  · simp [get_scenario, pyGet, pyGetD, dictGet, PyObj.isNone]
  · simp [get_scenario, pyGet, pyGetD, dictGet, PyObj.isNone]
  · simp [get_scenario, pyGet, pyGetD, dictGet, PyObj.isNone]

/-- Witness for C8: a concrete non-mapping value is returned unchanged. -/
theorem get_scenario_spec_witness :
    (PyObj.scalar (5 : Int)).isDict = false
    ∧ get_scenario "dev" (PyObj.scalar (5 : Int)) (PyObj.scalar 9) = PyObj.scalar 5 :=
  ⟨rfl, get_scenario_spec.1 Int "dev" (PyObj.scalar 5) (PyObj.scalar 9) rfl⟩

/-- C9: the Arg.CIDR constructor is total: for every key and every value,
including None and strings that do not match the recorded pattern, it
returns normally; the length bounds and AllowedPattern are recorded only on
the parameter spec, and the argument binds the given value unchanged, with
no local validation of the value. -/
theorem Arg_CIDR_no_local_validation (key : String) (value : JValue) (description : String) :
    (Arg.CIDR key value description).argument = template_argument key value
    ∧ (Arg.CIDR key value description).argument.ParameterKey = key
    ∧ (Arg.CIDR key value description).argument.ParameterValue = value
    ∧ (Arg.CIDR key value description).key = key
    ∧ dictGet (Arg.CIDR key value description).parameter "MinLength" = some (.str "9")
    ∧ dictGet (Arg.CIDR key value description).parameter "MaxLength" = some (.str "18")
    ∧ dictGet (Arg.CIDR key value description).parameter "AllowedPattern"
        = some (.str "(\\d\x7b1,3\x7d)\\.(\\d\x7b1,3\x7d)\\.(\\d\x7b1,3\x7d)\\.(\\d\x7b1,3\x7d)/(\\d\x7b1,2\x7d)")
    ∧ dictGet (Arg.CIDR key value description).parameter "Type" = some (.str "String") := by
  refine ⟨rfl, rfl, rfl, rfl, ?_, ?_, ?_, ?_⟩ <;>
    simp [Arg.CIDR, dictGet]

theorem cname_cluster_raises
    (c : CloudFormationConfiguration) (key hostname vpc ttl : String) :
    c._add_record_cname key hostname vpc ttl false true false false
      = .error ("NotSupported currently", c) := by
  simp [CloudFormationConfiguration._add_record_cname]

/-- C5: a DNS-alias record call with the single-node-cache role
(cluster=True, all other role flags false) raises NotSupported immediately,
and the configuration carried by the propagating exception is exactly the
input configuration: no record resource and no parameter or argument were
added by the call. -/
theorem add_record_cname_cluster_unsupported
    (c : CloudFormationConfiguration) (key hostname vpc ttl : String) :
    c._add_record_cname key hostname vpc ttl false true false false
      = .error ("NotSupported currently", c) :=
  cname_cluster_raises c key hostname vpc ttl

theorem setResourceField_arguments (c : CloudFormationConfiguration)
    (rkey field : String) (v : JValue) :
    (c.setResourceField rkey field v).arguments = c.arguments := by
  cases hr : dictGet c.resources rkey <;>
    simp [CloudFormationConfiguration.setResourceField, hr]

theorem setResourceField_parameters (c : CloudFormationConfiguration)
    (rkey field : String) (v : JValue) :
    (c.setResourceField rkey field v).parameters = c.parameters := by
  cases hr : dictGet c.resources rkey <;>
    simp [CloudFormationConfiguration.setResourceField, hr]

theorem setResourcePropField_arguments (c : CloudFormationConfiguration)
    (rkey field : String) (v : JValue) :
    (c.setResourcePropField rkey field v).arguments = c.arguments := by
  cases hr : dictGet c.resources rkey <;>
    simp [CloudFormationConfiguration.setResourcePropField, hr]

theorem setResourcePropField_parameters (c : CloudFormationConfiguration)
    (rkey field : String) (v : JValue) :
    (c.setResourcePropField rkey field v).parameters = c.parameters := by
  cases hr : dictGet c.resources rkey <;>
    simp [CloudFormationConfiguration.setResourcePropField, hr]

theorem setResourceField_resources_ne (c : CloudFormationConfiguration)
    (rkey field : String) (v : JValue) (k' : String) (h : k' ≠ rkey) :
    dictGet (c.setResourceField rkey field v).resources k' = dictGet c.resources k' := by
  cases hr : dictGet c.resources rkey <;>
    simp [CloudFormationConfiguration.setResourceField, hr, dictGet_dictSet_ne _ _ _ _ h]

theorem setResourcePropField_resources_ne (c : CloudFormationConfiguration)
    (rkey field : String) (v : JValue) (k' : String) (h : k' ≠ rkey) :
    dictGet (c.setResourcePropField rkey field v).resources k' = dictGet c.resources k' := by
  cases hr : dictGet c.resources rkey <;>
    simp [CloudFormationConfiguration.setResourcePropField, hr, dictGet_dictSet_ne _ _ _ _ h]

/-- C10: every call to `add_redis_cluster` raises NotSupported, because its
final step invokes the DNS-alias helper with the unsupported
single-node-cache role; the state carried by the propagating exception
already contains the cache cluster resource at `key`, the subnet group
resource at `key ++ "SubnetGroup"`, and the `key ++ "Hostname"` parameter
(whose bound argument was appended when the parameter was new). -/
theorem add_redis_cluster_always_raises
    (c : CloudFormationConfiguration) (scenario key hostname : String)
    (subnets security_groups : List String) (type_ : PyObj String)
    (port : JValue) (version : String) :
    ∃ c', c.add_redis_cluster scenario key hostname subnets security_groups type_ port version
        = .error ("NotSupported currently", c')
      ∧ ((dictGet c'.resources key).bind (fun r => r.getField "Type"))
          = some (.str "AWS::ElastiCache::CacheCluster")
      ∧ ((dictGet c'.resources (key ++ "SubnetGroup")).bind (fun r => r.getField "Type"))
          = some (.str "AWS::ElastiCache::SubnetGroup")
      ∧ (dictGet c'.parameters (key ++ "Hostname")).isSome
      ∧ (c'.arguments = c.arguments
            ++ [template_argument (key ++ "Hostname") (.str (hostname.replace "." "-"))]
          ∨ c'.arguments = c.arguments) := by
  have hne : key ≠ key ++ "SubnetGroup" :=
    Ne.symm (string_append_ne key "SubnetGroup" (by decide))
  refine ⟨_, cname_cluster_raises _ key hostname "VPC" "300", ?_, ?_, ?_, ?_⟩
  · rw [add_arg_resources, dictGet_dictSet_ne _ _ _ _ hne, dictGet_dictSet_self]
    simp [JValue.getField, dictGet]
  · rw [add_arg_resources, dictGet_dictSet_self]
    simp [JValue.getField, dictGet]
  · exact add_arg_key_present _ _
  · exact add_arg_arguments_cases _ _

theorem count_none_cons_some (x : String) (l : List (Option String)) :
    List.count (none : Option String) (some x :: l) = List.count none l := by
  simp [List.count_cons]

theorem count_none_cons_none (l : List (Option String)) :
    List.count (none : Option String) (none :: l) = List.count none l + 1 := by
  simp [List.count_cons]

theorem add_arg_arguments_append_or (c0 c : CloudFormationConfiguration) (a : Arg)
    (hargs : c0.arguments = c.arguments) :
    (c0.add_arg a).arguments = c.arguments ++ [a.argument]
    ∨ (c0.add_arg a).arguments = c.arguments := by
  rcases add_arg_arguments_cases c0 a with h | h
  · left
    rw [h, hargs]
  · right
    rw [h, hargs]

/-- C4: a route call succeeds exactly when exactly one of the three targets
gateway / peer / instance is non-null: on success the Route resource at
`key` is registered with the property of the selected target and the Cidr
parameter (with its bound argument when new) is added; with zero targets or
with two or more targets the call raises. -/
theorem add_route_table_route_spec
    (c : CloudFormationConfiguration) (key route_table : String) (cidr : JValue)
    (gateway peer instance_ : Option String) (depends_on : Option JValue) :
    (([gateway, peer, instance_] : List (Option String)).length
        - ([gateway, peer, instance_] : List (Option String)).count none = 1 →
      ∃ c', c.add_route_table_route key route_table cidr gateway peer instance_ depends_on
          = .ok c'
        ∧ ((dictGet c'.resources key).bind (fun r => r.getField "Type"))
            = some (.str "AWS::EC2::Route")
        ∧ (∀ g, gateway = some g →
            c'.resourceProp key "GatewayId" = some (.obj [("Ref", .str g)]))
        ∧ (∀ p, peer = some p →
            c'.resourceProp key "VpcPeeringConnectionId" = some (.obj [("Ref", .str p)]))
        ∧ (∀ i, instance_ = some i →
            c'.resourceProp key "InstanceId" = some (.obj [("Ref", .str i)]))
        ∧ (dictGet c'.parameters (key ++ "Cidr")).isSome
        ∧ (c'.arguments = c.arguments ++ [template_argument (key ++ "Cidr") cidr]
            ∨ c'.arguments = c.arguments))
    ∧ (([gateway, peer, instance_] : List (Option String)).length
        - ([gateway, peer, instance_] : List (Option String)).count none ≠ 1 →
      ∃ cerr, c.add_route_table_route key route_table cidr gateway peer instance_ depends_on
        = .error ("Required to specify one and only one of the following arguments: gateway|peer|instance", cerr)) := by
  rcases gateway with _ | g <;> rcases peer with _ | p <;> rcases instance_ with _ | i
  · refine ⟨fun hcount => ?_, fun _ => ⟨_, rfl⟩⟩
    simp [count_none_cons_some, count_none_cons_none] at hcount
  · refine ⟨fun _ => ?_,
      fun hcount => absurd (by simp [count_none_cons_some, count_none_cons_none]) hcount⟩
    rcases depends_on with _ | d <;>
      refine ⟨_, rfl, ?_, ?_, ?_, ?_, add_arg_key_present _ _,
        add_arg_arguments_append_or _ _ _ (by
          simp [setResourceField_arguments, setResourcePropField_arguments])⟩ <;>
      simp [CloudFormationConfiguration.setResourcePropField,
        CloudFormationConfiguration.setResourceField,
        CloudFormationConfiguration.resourceProp, add_arg_resources,
        dictGet_dictSet_self, JValue.setField, JValue.getField, dictGet, dictSet]
  · refine ⟨fun _ => ?_,
      fun hcount => absurd (by simp [count_none_cons_some, count_none_cons_none]) hcount⟩
    rcases depends_on with _ | d <;>
      refine ⟨_, rfl, ?_, ?_, ?_, ?_, add_arg_key_present _ _,
        add_arg_arguments_append_or _ _ _ (by
          simp [setResourceField_arguments, setResourcePropField_arguments])⟩ <;>
      simp [CloudFormationConfiguration.setResourcePropField,
        CloudFormationConfiguration.setResourceField,
        CloudFormationConfiguration.resourceProp, add_arg_resources,
        dictGet_dictSet_self, JValue.setField, JValue.getField, dictGet, dictSet]
  · refine ⟨fun hcount => ?_, fun _ => ⟨_, rfl⟩⟩
    simp [count_none_cons_some, count_none_cons_none] at hcount
  · refine ⟨fun _ => ?_,
      fun hcount => absurd (by simp [count_none_cons_some, count_none_cons_none]) hcount⟩
    rcases depends_on with _ | d <;>
      refine ⟨_, rfl, ?_, ?_, ?_, ?_, add_arg_key_present _ _,
        add_arg_arguments_append_or _ _ _ (by
          simp [setResourceField_arguments, setResourcePropField_arguments])⟩ <;>
      simp [CloudFormationConfiguration.setResourcePropField,
        CloudFormationConfiguration.setResourceField,
        CloudFormationConfiguration.resourceProp, add_arg_resources,
        dictGet_dictSet_self, JValue.setField, JValue.getField, dictGet, dictSet]
  · refine ⟨fun hcount => ?_, fun _ => ⟨_, rfl⟩⟩
    simp [count_none_cons_some, count_none_cons_none] at hcount
  · refine ⟨fun hcount => ?_, fun _ => ⟨_, rfl⟩⟩
    simp [count_none_cons_some, count_none_cons_none] at hcount
  · refine ⟨fun hcount => ?_, fun _ => ⟨_, rfl⟩⟩
    simp [count_none_cons_some, count_none_cons_none] at hcount

/-- Witness for C4: on an empty configuration, a call with only the gateway
target succeeds and registers the GatewayId property, and a call with zero
targets raises. -/
theorem add_route_table_route_spec_witness :
    (∃ c', CloudFormationConfiguration.add_route_table_route
        ⟨[], [], [], "vpc.boss", "us-east-1"⟩ "R" "RT" (.str "10.0.0.0/8")
        (some "IGW") none none none = .ok c'
      ∧ c'.resourceProp "R" "GatewayId" = some (.obj [("Ref", .str "IGW")]))
    ∧ (∃ cerr, CloudFormationConfiguration.add_route_table_route
        ⟨[], [], [], "vpc.boss", "us-east-1"⟩ "R" "RT" (.str "10.0.0.0/8")
        none none none none
        = .error ("Required to specify one and only one of the following arguments: gateway|peer|instance", cerr)) := by
  constructor
  · obtain ⟨c', hok, _, hg, _, _, _, _⟩ :=
      (add_route_table_route_spec ⟨[], [], [], "vpc.boss", "us-east-1"⟩ "R" "RT"
        (.str "10.0.0.0/8") (some "IGW") none none none).1 (by decide)
    exact ⟨c', hok, hg "IGW" rfl⟩
  · exact (add_route_table_route_spec ⟨[], [], [], "vpc.boss", "us-east-1"⟩ "R" "RT"
      (.str "10.0.0.0/8") none none none none).2 (by decide)

theorem add_arg_lockstep_step (c : CloudFormationConfiguration) (a : Arg)
    (hwf : a.argument.ParameterKey = a.key)
    (h1 : c.parameters.map Prod.fst = c.arguments.map TemplateArgument.ParameterKey)
    (h2 : (c.parameters.map Prod.fst).Nodup) :
    (c.add_arg a).parameters.map Prod.fst
        = (c.add_arg a).arguments.map TemplateArgument.ParameterKey
    ∧ ((c.add_arg a).parameters.map Prod.fst).Nodup := by
  by_cases hp : (dictGet c.parameters a.key).isSome
  · simpa [CloudFormationConfiguration.add_arg, hp] using ⟨h1, h2⟩
  · have hnone : dictGet c.parameters a.key = none := by
      cases hdg : dictGet c.parameters a.key
      · rfl
      · simp [hdg] at hp
    have hmem := (dictGet_eq_none_iff c.parameters a.key).mp hnone
    constructor
    · simp [CloudFormationConfiguration.add_arg, hp,
        dictSet_map_fst_of_none _ _ _ hnone, h1, hwf]
    · simp only [CloudFormationConfiguration.add_arg, hp, if_false, Bool.false_eq_true,
        ite_false, dictSet_map_fst_of_none _ _ _ hnone]
      rw [List.nodup_append]
      exact ⟨h2, List.nodup_singleton _, by simpa using hmem⟩

theorem add_arg_lockstep_fold (args : List Arg)
    (hwf : ∀ a ∈ args, a.argument.ParameterKey = a.key) :
    ∀ (c : CloudFormationConfiguration),
      c.parameters.map Prod.fst = c.arguments.map TemplateArgument.ParameterKey →
      (c.parameters.map Prod.fst).Nodup →
      ((args.foldl CloudFormationConfiguration.add_arg c).parameters.map Prod.fst
          = (args.foldl CloudFormationConfiguration.add_arg c).arguments.map
              TemplateArgument.ParameterKey
        ∧ ((args.foldl CloudFormationConfiguration.add_arg c).parameters.map Prod.fst).Nodup) := by
  induction args with
  | nil =>
      intro c h1 h2
      exact ⟨h1, h2⟩
  | cons a rest ih =>
      intro c h1 h2
      obtain ⟨h1', h2'⟩ := add_arg_lockstep_step c a (hwf a (by simp)) h1 h2
      exact ih (fun x hx => hwf x (by simp [hx])) (c.add_arg a) h1' h2'

/-- C3: for every Configuration built by any sequence of add_arg calls from
the freshly constructed state (empty parameters and arguments), with every
Arg carrying its argument under its own key (as every Arg constructor
guarantees), the list of parameter keys equals the list of argument
ParameterKey values (so the two key sets agree, a bijection), the counts
agree, no key appears twice among the arguments, and add_arg with an
already-present key changes neither parameters nor arguments. -/
theorem add_arg_lockstep (args : List Arg) (resources0 : List (String × JValue))
    (vpcd reg : String)
    (hwf : ∀ a ∈ args, a.argument.ParameterKey = a.key) :
    ((args.foldl CloudFormationConfiguration.add_arg
        ⟨resources0, [], [], vpcd, reg⟩).parameters.map Prod.fst
      = (args.foldl CloudFormationConfiguration.add_arg
        ⟨resources0, [], [], vpcd, reg⟩).arguments.map TemplateArgument.ParameterKey)
    ∧ ((args.foldl CloudFormationConfiguration.add_arg
        ⟨resources0, [], [], vpcd, reg⟩).parameters.map Prod.fst).Nodup
    ∧ ((args.foldl CloudFormationConfiguration.add_arg
        ⟨resources0, [], [], vpcd, reg⟩).arguments.map TemplateArgument.ParameterKey).Nodup
    ∧ (args.foldl CloudFormationConfiguration.add_arg
        ⟨resources0, [], [], vpcd, reg⟩).parameters.length
      = (args.foldl CloudFormationConfiguration.add_arg
        ⟨resources0, [], [], vpcd, reg⟩).arguments.length
    ∧ (∀ (c : CloudFormationConfiguration) (a : Arg),
        (dictGet c.parameters a.key).isSome → c.add_arg a = c) := by
  obtain ⟨h1, h2⟩ := add_arg_lockstep_fold args hwf
    ⟨resources0, [], [], vpcd, reg⟩ rfl (by simp)
  refine ⟨h1, h2, h1 ▸ h2, ?_, ?_⟩
  · have hl := congrArg List.length h1
    simpa using hl
  · intro c a h
    simp [CloudFormationConfiguration.add_arg, h]

/-- Witness for C3: building with a CIDR argument at key K and then a second
Arg at the same key K leaves the parameter keys and argument keys in
lockstep, with exactly one argument (the second add was a no-op). -/
theorem add_arg_lockstep_witness :
    (([Arg.CIDR "K" (.str "10.0.0.0/8") "", Arg.String "K" JValue.null ""].foldl
        CloudFormationConfiguration.add_arg
        ⟨[], [], [], "vpc.boss", "us-east-1"⟩).parameters.map Prod.fst
      = ([Arg.CIDR "K" (.str "10.0.0.0/8") "", Arg.String "K" JValue.null ""].foldl
        CloudFormationConfiguration.add_arg
        ⟨[], [], [], "vpc.boss", "us-east-1"⟩).arguments.map TemplateArgument.ParameterKey)
    ∧ ([Arg.CIDR "K" (.str "10.0.0.0/8") "", Arg.String "K" JValue.null ""].foldl
        CloudFormationConfiguration.add_arg
        ⟨[], [], [], "vpc.boss", "us-east-1"⟩).arguments.length = 1 :=
  ⟨(add_arg_lockstep [Arg.CIDR "K" (.str "10.0.0.0/8") "", Arg.String "K" JValue.null ""]
      [] "vpc.boss" "us-east-1"
      (by simp [Arg.CIDR, Arg.String, template_argument])).1,
   by simp [CloudFormationConfiguration.add_arg, Arg.CIDR, Arg.String,
      template_argument, dictGet, dictSet, dictGet_dictSet_self]⟩

theorem record_cname_write_record_props (c : CloudFormationConfiguration)
    (key hostname vpc ttl : String) (ak : Option String) :
    ((dictGet (c.record_cname_write key hostname vpc ttl ak).resources (key ++ "Record")).bind
        (fun r => r.getField "Type")) = some (.str "AWS::Route53::RecordSet")
    ∧ (c.record_cname_write key hostname vpc ttl ak).resourceProp
        (key ++ "Record") "ResourceRecords"
        = some (.arr [.obj [("Fn::GetAtt", .arr [.str key,
            match ak with | some s => .str s | none => .null])]])
    ∧ (c.record_cname_write key hostname vpc ttl ak).resourceProp
        (key ++ "Record") "Type" = some (.str "CNAME") := by
  refine ⟨?_, ?_, ?_⟩ <;>
    (simp only [CloudFormationConfiguration.record_cname_write, add_arg_resources]
     split <;>
      simp [CloudFormationConfiguration.setResourceField,
        CloudFormationConfiguration.resourceProp, add_arg_resources,
        dictGet_dictSet_self, JValue.setField, JValue.getField, dictGet, dictSet])

theorem record_cname_write_resources_ne (c : CloudFormationConfiguration)
    (key hostname vpc ttl : String) (ak : Option String) (k' : String)
    (h : k' ≠ key ++ "Record") :
    dictGet (c.record_cname_write key hostname vpc ttl ak).resources k'
      = dictGet c.resources k' := by
  simp only [CloudFormationConfiguration.record_cname_write, add_arg_resources]
  split
  · rw [setResourceField_resources_ne _ _ _ _ _ h]
    exact dictGet_dictSet_ne _ _ _ _ h
  · exact dictGet_dictSet_ne _ _ _ _ h

theorem record_cname_write_param_mono (c : CloudFormationConfiguration)
    (key hostname vpc ttl : String) (ak : Option String) (k : String)
    (h : (dictGet c.parameters k).isSome) :
    (dictGet (c.record_cname_write key hostname vpc ttl ak).parameters k).isSome := by
  simp only [CloudFormationConfiguration.record_cname_write]
  split
  · refine add_arg_param_mono _ _ _ ?_
    rw [setResourceField_parameters]
    exact h
  · exact add_arg_param_mono _ _ _ h

/-- C7: one add_rds_db call registers exactly the three resource definitions
at `key` (the DB instance), `key ++ "SubnetGroup"` (its subnet group) and
`key ++ "Record"` (a CNAME record whose ResourceRecords entry is the
Fn::GetAtt reference to [key, Endpoint.Address]); every other resource key
is untouched, and the Hostname, Port, DBName, Username and Password
parameter/argument pairs are all present afterwards. -/
theorem add_rds_db_spec (c : CloudFormationConfiguration)
    (scenario key hostname : String) (port db_name username password : JValue)
    (subnets : List String) (type_ : PyObj String) (storage : String)
    (security_groups : Option (List String)) :
    ∃ c', c.add_rds_db scenario key hostname port db_name username password
        subnets type_ storage security_groups = .ok c'
      ∧ ((dictGet c'.resources key).bind (fun r => r.getField "Type"))
          = some (.str "AWS::RDS::DBInstance")
      ∧ ((dictGet c'.resources (key ++ "SubnetGroup")).bind (fun r => r.getField "Type"))
          = some (.str "AWS::RDS::DBSubnetGroup")
      ∧ ((dictGet c'.resources (key ++ "Record")).bind (fun r => r.getField "Type"))
          = some (.str "AWS::Route53::RecordSet")
      ∧ c'.resourceProp (key ++ "Record") "Type" = some (.str "CNAME")
      ∧ c'.resourceProp (key ++ "Record") "ResourceRecords"
          = some (.arr [.obj [("Fn::GetAtt", .arr [.str key, .str "Endpoint.Address"])]])
      ∧ (∀ k', k' ≠ key → k' ≠ key ++ "SubnetGroup" → k' ≠ key ++ "Record" →
          dictGet c'.resources k' = dictGet c.resources k')
      ∧ (dictGet c'.parameters (key ++ "Hostname")).isSome
      ∧ (dictGet c'.parameters (key ++ "Port")).isSome
      ∧ (dictGet c'.parameters (key ++ "DBName")).isSome
      ∧ (dictGet c'.parameters (key ++ "Username")).isSome
      ∧ (dictGet c'.parameters (key ++ "Password")).isSome := by
  have hSK : key ≠ key ++ "SubnetGroup" :=
    Ne.symm (string_append_ne key "SubnetGroup" (by decide))
  have hRK : key ≠ key ++ "Record" :=
    Ne.symm (string_append_ne key "Record" (by decide))
  have hSR : key ++ "SubnetGroup" ≠ key ++ "Record" :=
    string_append_left_inj key "SubnetGroup" "Record" (by decide)
  rcases security_groups with _ | sgs
  · refine ⟨_, rfl, ?_, ?_, (record_cname_write_record_props _ _ _ _ _ _).1,
      (record_cname_write_record_props _ _ _ _ _ _).2.2,
      (record_cname_write_record_props _ _ _ _ _ _).2.1, ?_,
      record_cname_write_param_mono _ _ _ _ _ _ _ (add_arg_param_mono _ _ _
        (add_arg_param_mono _ _ _ (add_arg_param_mono _ _ _ (add_arg_param_mono _ _ _
          (add_arg_key_present _ _))))),
      record_cname_write_param_mono _ _ _ _ _ _ _ (add_arg_param_mono _ _ _
        (add_arg_param_mono _ _ _ (add_arg_param_mono _ _ _ (add_arg_key_present _ _)))),
      record_cname_write_param_mono _ _ _ _ _ _ _ (add_arg_param_mono _ _ _
        (add_arg_param_mono _ _ _ (add_arg_key_present _ _))),
      record_cname_write_param_mono _ _ _ _ _ _ _ (add_arg_param_mono _ _ _
        (add_arg_key_present _ _)),
      record_cname_write_param_mono _ _ _ _ _ _ _ (add_arg_key_present _ _)⟩
    · rw [record_cname_write_resources_ne _ _ _ _ _ _ _ hRK]
      simp only [add_arg_resources]
      rw [dictGet_dictSet_ne _ _ _ _ hSK, dictGet_dictSet_self]
      simp [JValue.getField, dictGet]
    · rw [record_cname_write_resources_ne _ _ _ _ _ _ _ hSR]
      simp only [add_arg_resources]
      rw [dictGet_dictSet_self]
      simp [JValue.getField, dictGet]
    · intro k' h1 h2 h3
      rw [record_cname_write_resources_ne _ _ _ _ _ _ _ h3]
      simp only [add_arg_resources]
      rw [dictGet_dictSet_ne _ _ _ _ h2, dictGet_dictSet_ne _ _ _ _ h1]
  · refine ⟨_, rfl, ?_, ?_, (record_cname_write_record_props _ _ _ _ _ _).1,
      (record_cname_write_record_props _ _ _ _ _ _).2.2,
      (record_cname_write_record_props _ _ _ _ _ _).2.1, ?_,
      record_cname_write_param_mono _ _ _ _ _ _ _ (add_arg_param_mono _ _ _
        (add_arg_param_mono _ _ _ (add_arg_param_mono _ _ _ (add_arg_param_mono _ _ _
          (add_arg_key_present _ _))))),
      record_cname_write_param_mono _ _ _ _ _ _ _ (add_arg_param_mono _ _ _
        (add_arg_param_mono _ _ _ (add_arg_param_mono _ _ _ (add_arg_key_present _ _)))),
      record_cname_write_param_mono _ _ _ _ _ _ _ (add_arg_param_mono _ _ _
        (add_arg_param_mono _ _ _ (add_arg_key_present _ _))),
      record_cname_write_param_mono _ _ _ _ _ _ _ (add_arg_param_mono _ _ _
        (add_arg_key_present _ _)),
      record_cname_write_param_mono _ _ _ _ _ _ _ (add_arg_key_present _ _)⟩
    · rw [record_cname_write_resources_ne _ _ _ _ _ _ _ hRK]
      simp only [add_arg_resources]
      simp [CloudFormationConfiguration.setResourcePropField, dictGet_dictSet_self,
        dictGet_dictSet_ne _ _ _ _ hSK, JValue.setField, JValue.getField, dictGet, dictSet]
    · rw [record_cname_write_resources_ne _ _ _ _ _ _ _ hSR]
      simp only [add_arg_resources]
      rw [setResourcePropField_resources_ne _ _ _ _ _ (Ne.symm hSK), dictGet_dictSet_self]
      simp [JValue.getField, dictGet]
    · intro k' h1 h2 h3
      rw [record_cname_write_resources_ne _ _ _ _ _ _ _ h3]
      simp only [add_arg_resources]
      rw [setResourcePropField_resources_ne _ _ _ _ _ h1]
      rw [dictGet_dictSet_ne _ _ _ _ h2, dictGet_dictSet_ne _ _ _ _ h1]

/-- Witness for C7: a concrete add_rds_db call on an empty configuration
succeeds, its Record resource references the Endpoint.Address attribute of
the instance, and an unrelated resource key stays absent. -/
theorem add_rds_db_spec_witness :
    ∃ c', CloudFormationConfiguration.add_rds_db
        ⟨[], [], [], "vpc.boss", "us-east-1"⟩ "development" "DB" "db.vpc.boss"
        (.str "3306") (.str "boss") (.str "u") (.str "p") ["ASubnet", "BSubnet"]
        (.scalar "db.t2.micro") "5" none = .ok c'
      ∧ c'.resourceProp ("DB" ++ "Record") "ResourceRecords"
          = some (.arr [.obj [("Fn::GetAtt", .arr [.str "DB", .str "Endpoint.Address"])]])
      ∧ dictGet c'.resources "Other" = none := by
  obtain ⟨c', heq, _, _, _, _, hrr, hne, _⟩ :=
    add_rds_db_spec ⟨[], [], [], "vpc.boss", "us-east-1"⟩ "development" "DB" "db.vpc.boss"
      (.str "3306") (.str "boss") (.str "u") (.str "p") ["ASubnet", "BSubnet"]
      (.scalar "db.t2.micro") "5" none
  refine ⟨c', heq, hrr, ?_⟩
  rw [hne "Other" (by decide) (by decide) (by decide)]
  rfl

/-- C2: when some argument of the configuration is bound to None, create
raises an error naming the parameter key of the offending argument (the
first such argument) and performs no provider call at all: the event trace
is empty, so in particular neither createStack nor describeStack happens;
when every argument value is non-None the precheck passes and the
createStack request is issued. -/
theorem create_null_precheck (c : CloudFormationConfiguration)
    (describe : Nat → List String) (wait : Bool)
    (h : wait = true → (describe 0).length ≠ 0 → ∃ i, stackDone describe i = true) :
    (∀ a, c.arguments.find? (fun x => x.ParameterValue.isNull) = some a →
      a ∈ c.arguments ∧ a.ParameterValue.isNull = true ∧
      c.create describe wait h
        = ⟨[], .error ("Could not determine argument " ++ a.ParameterKey)⟩)
    ∧ ((∃ a ∈ c.arguments, a.ParameterValue.isNull = true) →
        (c.arguments.find? (fun x => x.ParameterValue.isNull)).isSome)
    ∧ (c.arguments.find? (fun x => x.ParameterValue.isNull) = none →
        ProviderEvent.createStack ∈ (c.create describe wait h).events) := by
  refine ⟨?_, ?_, ?_⟩
  · intro a ha
    have hp := List.find?_some ha
    refine ⟨List.mem_of_find?_eq_some ha, by simpa using hp, ?_⟩
    simp [CloudFormationConfiguration.create, ha]
  · rintro ⟨a, hmem, hnull⟩
    rw [List.find?_isSome]
    exact ⟨a, hmem, hnull⟩
  · intro hnone
    simp only [CloudFormationConfiguration.create, hnone]
    split
    · split
      · simp
      · split <;> simp
    · simp

/-- Witness for C2: a configuration whose only argument is bound to None
makes create raise naming DBPassword, with an empty event trace. -/
theorem create_null_precheck_witness :
    (CloudFormationConfiguration.create
        ⟨[], [], [⟨"DBPassword", JValue.null⟩], "vpc.boss", "us-east-1"⟩
        (fun _ => ["CREATE_COMPLETE"]) true (fun _ _ => ⟨0, rfl⟩)).events = []
    ∧ (CloudFormationConfiguration.create
        ⟨[], [], [⟨"DBPassword", JValue.null⟩], "vpc.boss", "us-east-1"⟩
        (fun _ => ["CREATE_COMPLETE"]) true (fun _ _ => ⟨0, rfl⟩)).result
        = .error "Could not determine argument DBPassword" := by
  obtain ⟨_, _, heq⟩ :=
    (create_null_precheck ⟨[], [], [⟨"DBPassword", JValue.null⟩], "vpc.boss", "us-east-1"⟩
      (fun _ => ["CREATE_COMPLETE"]) true (fun _ _ => ⟨0, rfl⟩)).1
      ⟨"DBPassword", JValue.null⟩ rfl
  rw [heq]
  exact ⟨rfl, rfl⟩

/-- C6: with wait=False create returns None with no polling at all; with
wait=True it returns None when the provider reports no stacks on the first
describe; otherwise it polls, emitting one fixed sleep(5) before each
further describeStack, for exactly pollIdx iterations, one per
CREATE_IN_PROGRESS observation, with no bound (the iteration count exceeds
every n below which all observations are still in progress), and finally
returns True exactly for a reported CREATE_COMPLETE status and False for
any other reported terminal status. -/
theorem create_wait_poll (c : CloudFormationConfiguration)
    (describe : Nat → List String)
    (hnull : c.arguments.find? (fun a => a.ParameterValue.isNull) = none)
    (hterm : ∃ i, stackDone describe i = true) :
    (∀ h, c.create describe false h = ⟨[.createStack], .ok none⟩)
    ∧ ((describe 0).length = 0 →
        ∀ h, c.create describe true h = ⟨[.createStack, .describeStack], .ok none⟩)
    ∧ ((describe 0).length ≠ 0 →
        ∀ h, c.create describe true h
          = ⟨ProviderEvent.createStack :: .describeStack
                :: pollTail (pollIdx describe hterm),
             match (describe (pollIdx describe hterm)).head? with
             | none => .error "IndexError"
             | some s => .ok (some (if s = "CREATE_COMPLETE" then true else false))⟩)
    ∧ (∀ k, (pollTail k).count (ProviderEvent.sleep 5) = k)
    ∧ (∀ k e, e ∈ pollTail k → e = .sleep 5 ∨ e = .describeStack)
    ∧ (∀ n, (∀ i, i ≤ n → stackDone describe i = false) →
        n < pollIdx describe hterm) := by
  refine ⟨?_, ?_, ?_, ?_, ?_, ?_⟩
  · intro h
    simp [CloudFormationConfiguration.create, hnull]
  · intro h0 h
    simp [CloudFormationConfiguration.create, hnull, h0]
  · intro h0 h
    simp only [CloudFormationConfiguration.create, hnull]
    rw [dif_pos trivial, dif_neg h0]
    have hpoll : ∀ (h1 : ∃ i, stackDone describe i = true),
        pollIdx describe h1 = pollIdx describe hterm := fun _ => rfl
    simp only [hpoll]
    cases hh : (describe (pollIdx describe hterm)).head? <;> simp [hh]
  · intro k
    induction k with
    | zero => simp [pollTail]
    | succ n ih => simp [pollTail, ih]
  · intro k
    induction k with
    | zero => simp [pollTail]
    | succ n ih =>
        intro e he
        simp only [pollTail] at he
        rcases List.mem_cons.mp he with h1 | he2
        · exact Or.inl h1
        · rcases List.mem_cons.mp he2 with h2 | h3
          · exact Or.inr h2
          · exact ih e h3
  · intro n hall
    rw [pollIdx, Nat.lt_find_iff]
    intro m hm
    simp [hall m hm]

/-- Witness for C6: with two CREATE_IN_PROGRESS responses followed by
CREATE_COMPLETE, create(wait=True) sleeps 5 twice, describes three times
and returns True; and with wait=False it returns None with no polling. -/
theorem create_wait_poll_witness :
    CloudFormationConfiguration.create ⟨[], [], [], "vpc.boss", "us-east-1"⟩
        (fun i => if i < 2 then ["CREATE_IN_PROGRESS"] else ["CREATE_COMPLETE"]) true
        (fun _ _ => ⟨2, by decide⟩)
      = ⟨[ProviderEvent.createStack, .describeStack, .sleep 5, .describeStack,
          .sleep 5, .describeStack], .ok (some true)⟩
    ∧ CloudFormationConfiguration.create ⟨[], [], [], "vpc.boss", "us-east-1"⟩
        (fun i => if i < 2 then ["CREATE_IN_PROGRESS"] else ["CREATE_COMPLETE"]) false
        (fun _ _ => ⟨2, by decide⟩)
      = ⟨[ProviderEvent.createStack], .ok none⟩ := by
  have hterm : ∃ i, stackDone
      (fun i => if i < 2 then ["CREATE_IN_PROGRESS"] else ["CREATE_COMPLETE"]) i = true :=
    ⟨2, by decide⟩
  have hk : pollIdx (fun i => if i < 2 then ["CREATE_IN_PROGRESS"] else ["CREATE_COMPLETE"])
      hterm = 2 := by
    rw [pollIdx, Nat.find_eq_iff]
    refine ⟨by decide, ?_⟩
    intro n hn
    interval_cases n <;> decide
  have hmain := create_wait_poll ⟨[], [], [], "vpc.boss", "us-east-1"⟩
    (fun i => if i < 2 then ["CREATE_IN_PROGRESS"] else ["CREATE_COMPLETE"]) rfl hterm
  constructor
  · rw [hmain.2.2.1 (by decide) (fun _ _ => ⟨2, by decide⟩), hk]
    rfl
  · exact hmain.1 (fun _ _ => ⟨2, by decide⟩)

/-- Counterexample for C1: in proofreader.py the two vault-delete reversals
share one try block, so with a submission that fails after both django
secrets were written and a first delete that itself raises, the delete of
the django/db secret is never attempted — refuting the claim that every
previously issued secret gets a reversal attempt even when an earlier
reversal raises.  The original submission error is still what propagates. -/
theorem proofreader_compensation_counterexample :
    ExtCall.callVault "vault-write" VAULT_DJANGO_DB
        ∈ (Proofreader.create badOracle "proofreader-stack").calls
    ∧ badOracle.vaultOutcome "vault-delete" VAULT_DJANGO = .error "delete failed"
    ∧ ExtCall.callVault "vault-delete" VAULT_DJANGO
        ∈ (Proofreader.create badOracle "proofreader-stack").calls
    ∧ ExtCall.callVault "vault-delete" VAULT_DJANGO_DB
        ∉ (Proofreader.create badOracle "proofreader-stack").calls
    ∧ (Proofreader.create badOracle "proofreader-stack").result
        = .error "submission failed" := by
  decide

/-- C1 amended: when submission throws or reports failure after the secrets
were issued, each reversal GROUP runs independently, every reversal failure
is swallowed, and the original error is re-raised: in production.py the two
secrets get independent reversal attempts (credential override and token
revoke each in their own guard), and in proofreader.py the token revoke is
likewise always attempted, but the two vault-delete reversals share one
guard, so the django/db delete is attempted exactly when the django delete
did not raise. -/
theorem compensation_workflow_amended (o : VaultOracle) (name tP tE s1 s2 s3 e : String)
    (hP : o.vaultOutcome "vault-provision" "proofreader" = .ok tP)
    (hW1 : o.vaultOutcome "vault-write" VAULT_DJANGO = .ok s1)
    (hW2 : o.vaultOutcome "vault-write" VAULT_DJANGO_DB = .ok s2)
    (hE : o.vaultOutcome "vault-provision" "endpoint" = .ok tE)
    (hDj : o.vaultOutcome "vault-django" "db" = .ok s3)
    (hSub : o.submitOutcome = .error e
        ∨ (o.submitOutcome = .ok false ∧ e = "Create Failed")) :
    (Proofreader.create o name).result = .error e
    ∧ ExtCall.callVault "vault-delete" VAULT_DJANGO ∈ (Proofreader.create o name).calls
    ∧ ExtCall.callVault "vault-revoke" tP ∈ (Proofreader.create o name).calls
    ∧ (∀ v, o.vaultOutcome "vault-delete" VAULT_DJANGO = .ok v →
        ExtCall.callVault "vault-delete" VAULT_DJANGO_DB ∈ (Proofreader.create o name).calls)
    ∧ (∀ msg, o.vaultOutcome "vault-delete" VAULT_DJANGO = .error msg →
        ExtCall.callVault "vault-delete" VAULT_DJANGO_DB ∉ (Proofreader.create o name).calls)
    ∧ (Production.create o name).result = .error e
    ∧ ExtCall.callVault "vault-django" "" ∈ (Production.create o name).calls
    ∧ ExtCall.callVault "vault-revoke" tE ∈ (Production.create o name).calls := by
  rcases hSub with hs | ⟨hs, he⟩ <;>
    [skip; subst he] <;>
    simp only [Proofreader.create, Production.create, hP, hW1, hW2, hE, hDj, hs] <;>
    refine ⟨?_, ?_, ?_, fun v hv => ?_, fun msg hmsg => ?_, ?_, ?_, ?_⟩ <;>
    first
      | (replace hv : o.vaultOutcome "vault-delete" "secret/proofreader/django"
            = Except.ok v := hv
         simp [Proofreader.compensate, Production.compensate, hv,
           VAULT_DJANGO, VAULT_DJANGO_DB])
      | (replace hmsg : o.vaultOutcome "vault-delete" "secret/proofreader/django"
            = Except.error msg := hmsg
         simp [Proofreader.compensate, Production.compensate, hmsg,
           VAULT_DJANGO, VAULT_DJANGO_DB])
      | (cases hd : o.vaultOutcome "vault-delete" "secret/proofreader/django" <;>
          simp [Proofreader.compensate, Production.compensate, hd,
            VAULT_DJANGO, VAULT_DJANGO_DB])

/-- Witness for C1 amended: with every vault call succeeding and the stack
submission raising, both entry points run all their reversal attempts and
re-raise the submission error to the caller. -/
theorem compensation_workflow_amended_witness :
    (Proofreader.create ⟨fun _ _ => .ok "tok", .error "boom"⟩ "stack").result = .error "boom"
    ∧ ExtCall.callVault "vault-delete" VAULT_DJANGO_DB
        ∈ (Proofreader.create ⟨fun _ _ => .ok "tok", .error "boom"⟩ "stack").calls
    ∧ (Production.create ⟨fun _ _ => .ok "tok", .error "boom"⟩ "stack").result = .error "boom"
    ∧ ExtCall.callVault "vault-revoke" "tok"
        ∈ (Production.create ⟨fun _ _ => .ok "tok", .error "boom"⟩ "stack").calls := by
  have h := compensation_workflow_amended ⟨fun _ _ => .ok "tok", .error "boom"⟩ "stack"
    "tok" "tok" "tok" "tok" "tok" "boom" rfl rfl rfl rfl rfl (Or.inl rfl)
  exact ⟨h.1, h.2.2.2.1 "tok" rfl, h.2.2.2.2.2.1, h.2.2.2.2.2.2.2⟩
